import Mathlib

/-!
Shallow embedding of the crawling/resolution core of the
`ruoyi-getfinancialAll` repository (a fiscal final-accounts report crawler),
together with theorems settling the specification claims about it.

Each definition is a direct translation of the Python function named in its
doc comment; stateful code (file system, network I/O) is modelled by explicit
environments/oracles passed as arguments.
-/

namespace GetFinancial

/-! ## String utilities modelling Python primitives -/

/-- Boolean test that `p` is an initial segment of `l` (Python prefix test,
used to implement substring containment). -/
def listStartsWith : List Char → List Char → Bool
  | [], _ => true
  | _ :: _, [] => false
  | a :: as, b :: bs => a == b && listStartsWith as bs

/-- Boolean substring containment on character lists: `needle` occurs
contiguously inside `hay`.  Models Python's `needle in hay`. -/
def listContainsSub : List Char → List Char → Bool
  | needle, [] => needle.isEmpty
  | needle, c :: t => listStartsWith needle (c :: t) || listContainsSub needle t

/-- Python's `needle in hay` substring test on strings. -/
def strContains (hay needle : String) : Bool :=
  listContainsSub needle.toList hay.toList

/-- Python's `str.lower()` (ASCII case folding; the identity on CJK
characters, matching Python on the repository's inputs). -/
def strToLower (s : String) : String :=
  String.mk (s.toList.map Char.toLower)

/-- Python's `str.endswith(suf)`. -/
def strEndsWith (s suf : String) : Bool :=
  listStartsWith suf.toList.reverse s.toList.reverse

/-- Splitting a character list at every `'/'` (used to model
`str.split('/')` / path components), with an accumulator for the current
segment. -/
def splitOnSlash : List Char → List Char → List (List Char)
  | [], cur => [cur.reverse]
  | c :: t, cur =>
    if c == '/' then cur.reverse :: splitOnSlash t []
    else splitOnSlash t (c :: cur)

/-- Splits a character list at the first occurrence of `"://"` (the part of
`urlparse` that `_normalize_root`-style code consumes): returns the scheme
part and the remainder after the separator, or `none` when the separator
does not occur. -/
def splitSchemeAux : List Char → Option (List Char × List Char)
  | [] => none
  | c :: t =>
    if listStartsWith [':', '/', '/'] (c :: t) then some ([], t.drop 2)
    else
      match splitSchemeAux t with
      | some (s, r) => some (c :: s, r)
      | none => none

/-! ## Constants from `config.py` -/

/-- `config.py`: `TARGET_YEARS = [2024, 2025]`. -/
def TARGET_YEARS : List Nat := [2024, 2025]

/-- `config.py`: `TARGET_YEAR = max(TARGET_YEARS)`. -/
def TARGET_YEAR : Nat := (TARGET_YEARS.max?).getD 0

/-- `config.py`: `NO_TARGET_YEARS = [2023]` (defined but, as proved below,
never consulted by the matching logic). -/
def NO_TARGET_YEARS : List Nat := [2023]

/-- `config.py`: `SEARCH_KEYWORDS = ["决算", "预算"]`. -/
def SEARCH_KEYWORDS : List String := ["决算", "预算"]

/-- `config.py`: `TARGET_FILE_TYPES`. -/
def TARGET_FILE_TYPES : List String :=
  [".pdf", ".doc", ".docx", ".xls", ".xlsx", ".rar", ".zip"]

/-- `config.py`: `MAX_RETRIES = 3`. -/
def MAX_RETRIES : Nat := 3

/-! ## The match predicate: `FinanceReportSpider.matches_keywords` -/

/-- Translation of `spider.py` `FinanceReportSpider.matches_keywords`:
returns `false` on empty text, otherwise requires (keyword present
case-insensitively, or any of `SEARCH_KEYWORDS` present) and the string form
of `TARGET_YEAR` present in the original (non-lowercased) text. -/
def matches_keywords (text keyword : String) : Bool :=
  if text = "" then false
  else
    let text_lower := strToLower text
    let keyword_lower := strToLower keyword
    let year_str := Nat.repr TARGET_YEAR
    let has_keyword := strContains text_lower keyword_lower
      || SEARCH_KEYWORDS.any (fun kw => strContains text_lower (strToLower kw))
    let has_year := strContains text year_str
    has_keyword && has_year

/-- Modelled from the spec (§4.6.1), for refinement comparison only: the
four-condition match predicate the spec describes (core term 决算, target
year, a scope token or the region name with/without the 市 suffix, and no
excluded department/unit/sub-district/town/township token).  The code's
`matches_keywords` above is compared against this definition. -/
def specMatchPredicate (text region : String) (year : Nat) : Bool :=
  strContains text "决算"
  && strContains text (Nat.repr year)
  && (strContains text "本级" || strContains text "本市"
      || strContains text region || strContains text (region ++ "市"))
  && !(["部门", "单位", "街道", "镇", "乡"].any (fun t => strContains text t))

/-! ## Paginated result extraction: `FinanceReportSpider.parse_search_results` -/

/-- A report link extracted from a results page (`title`, `url`). -/
structure Report where
  title : String
  url : String
deriving DecidableEq, Repr

/-- Abstract site behaviour seen by `parse_search_results`:
`fetchStatus` is the HTTP status of `session.get` (`none` models a raised
exception, which the surrounding `try` turns into an early exit returning the
links collected so far); `pageReports` is the filtered, per-page-deduplicated
list of matching links extracted from a 200 page; `nextPage` is the result of
`find_next_page_url` on that page. -/
structure SearchSite where
  fetchStatus : String → Option Nat
  pageReports : String → List Report
  nextPage : String → Option String

/-- `spider.py` `parse_search_results`: `max_pages = 100`. -/
def max_pages : Nat := 100

/-- The `while current_page_url and page_count < max_pages` loop of
`parse_search_results`, with `fuel = max_pages - page_count` remaining page
budget, `processed` the `processed_pages` set (as a list, most recent first),
`current` the current page URL and `acc` the `all_reports` accumulator.
Returns the collected reports and the processed-page list. -/
def parse_search_results_loop (site : SearchSite) :
    Nat → List String → String → List Report → List Report × List String
  | 0, processed, _, acc => (acc, processed)
  | fuel + 1, processed, current, acc =>
    if current ∈ processed then (acc, processed)
    else
      let processed' := current :: processed
      match site.fetchStatus current with
      | none => (acc, processed')
      | some st =>
        if st ≠ 200 then (acc, processed')
        else
          let acc' := acc ++ site.pageReports current
          match site.nextPage current with
          | none => (acc', processed')
          | some nxt => parse_search_results_loop site fuel processed' nxt acc'

/-- `spider.py` `FinanceReportSpider.parse_search_results` (pagination control
flow): start from the results page URL with an empty `processed_pages` set and
an empty accumulator. -/
def parse_search_results (site : SearchSite) (start : String) :
    List Report × List String :=
  parse_search_results_loop site max_pages [] start []

/-- A synthetic site whose next-page heuristic always points back to the
already-visited start page `"A"` (the spec's cycle-protection test). -/
def cycleSite (r : Report) : SearchSite :=
  { fetchStatus := fun _ => some 200
    pageReports := fun _ => [r]
    nextPage := fun _ => some "A" }

/-! ## Liveness verification: `generate_site_mappings.first_alive` -/

/-- Outcome of `session.head` in `first_alive`: a status with the final
(post-redirect) URL, or one of the three exception classes the code
distinguishes (`Timeout`, `ConnectionError`, any other `Exception`). -/
inductive HeadRes where
  | ok (status : Nat) (finalUrl : String)
  | timeoutEx
  | connectionEx
  | otherEx
deriving DecidableEq, Repr

/-- Outcome of `session.get` in `first_alive`: a status with the final URL, or
a raised exception. -/
inductive GetRes where
  | ok (status : Nat) (finalUrl : String)
  | exc
deriving DecidableEq, Repr

/-- Deterministic network oracle for `first_alive`: per-URL HEAD and GET
behaviour. -/
structure Net where
  head : String → HeadRes
  get : String → GetRes

/-- `generate_site_mappings.py` `_normalize_root` as applied inside
`first_alive`: `urlparse(r.url)` then `f"{p.scheme}://{p.netloc}"`, i.e. the
scheme plus the host part of the final URL with any path/query/fragment cut
off. -/
def normalizeRoot (url : String) : String :=
  match splitSchemeAux url.toList with
  | some (scheme, rest) =>
    String.mk scheme ++ "://" ++
      String.mk (rest.takeWhile fun c => !(c == '/') && !(c == '?') && !(c == '#'))
  | none => "://"

/-- One iteration of the candidate loop of `first_alive`: HEAD first; on 200
return the normalized root of the final URL; on 405/403 fall back to a full
GET; on `Timeout`/`ConnectionError` skip the candidate; on any other exception
retry with GET (the handler's GET repeats the deterministic `Net.get`).
`none` means the candidate failed silently and the loop moves on. -/
def candidateResult (net : Net) (u : String) : Option String :=
  match net.head u with
  | .ok s f =>
    if s = 200 then some (normalizeRoot f)
    else if s = 405 ∨ s = 403 then
      match net.get u with
      | .ok 200 f2 => some (normalizeRoot f2)
      | _ => none
    else none
  | .timeoutEx => none
  | .connectionEx => none
  | .otherEx =>
    match net.get u with
    | .ok 200 f2 => some (normalizeRoot f2)
    | _ => none

/-- `generate_site_mappings.py` `first_alive`: walk the candidate list and
return the first candidate's normalized root that probes alive; `none` only
when every candidate has been tried and failed. -/
def first_alive (net : Net) : List String → Option String
  | [] => none
  | u :: rest =>
    match candidateResult net u with
    | some r => some r
    | none => first_alive net rest

/-! ## Candidate URL generation: `generate_site_mappings._process_city` -/

/-- `generate_site_mappings.py` `PROVINCE_PREFIXES`, transcribed verbatim
(the source list repeats the entries `"hb"` and `"hn"`). -/
def PROVINCE_PREFIXES : List String :=
  ["bj", "tj", "sh", "cq",
   "he", "hb", "sx", "nm", "nmg",
   "ln", "jl", "hlj",
   "js", "zj", "ah", "fj", "jx", "sd",
   "ha", "hen", "hn", "hb", "hn", "gd", "gx", "hi",
   "sc", "gz", "yn", "xz", "sn", "gs", "qh", "nx", "xj"]

/-- The `gov_candidates` list built inside `_process_city` from the pinyin
forms `full` and `abbr` returned by `get_pinyin_parts` (Python truthiness:
an empty form contributes nothing). -/
def gov_candidates (full abbr : String) : List String :=
  (if full = "" then [] else
    ["https://www." ++ full ++ ".gov.cn",
     "https://" ++ full ++ ".gov.cn",
     "http://www." ++ full ++ ".gov.cn",
     "http://" ++ full ++ ".gov.cn"])
  ++ (if abbr = "" then [] else
    ["https://www." ++ abbr ++ ".gov.cn",
     "https://" ++ abbr ++ ".gov.cn",
     "http://www." ++ abbr ++ ".gov.cn",
     "http://" ++ abbr ++ ".gov.cn",
     "https://www." ++ abbr ++ "s.gov.cn",
     "https://" ++ abbr ++ "s.gov.cn",
     "http://www." ++ abbr ++ "s.gov.cn",
     "http://" ++ abbr ++ "s.gov.cn"])
  ++ (PROVINCE_PREFIXES.flatMap fun prov =>
    (if full = "" then [] else
      ["https://" ++ prov ++ full ++ ".gov.cn",
       "http://" ++ prov ++ full ++ ".gov.cn",
       "https://www." ++ prov ++ full ++ ".gov.cn",
       "http://www." ++ prov ++ full ++ ".gov.cn"])
    ++ (if abbr = "" then [] else
      ["https://" ++ prov ++ abbr ++ ".gov.cn",
       "http://" ++ prov ++ abbr ++ ".gov.cn",
       "https://www." ++ prov ++ abbr ++ ".gov.cn",
       "http://www." ++ prov ++ abbr ++ ".gov.cn"]))

/-- The `fin_candidates` list built inside `_process_city` (finance-office
subdomain forms `czj.`, `cz.`, `mof.`). -/
def fin_candidates (full abbr : String) : List String :=
  (if full = "" then [] else
    ["https://czj." ++ full ++ ".gov.cn",
     "http://czj." ++ full ++ ".gov.cn",
     "https://cz." ++ full ++ ".gov.cn",
     "http://cz." ++ full ++ ".gov.cn",
     "https://mof." ++ full ++ ".gov.cn",
     "http://mof." ++ full ++ ".gov.cn"])
  ++ (if abbr = "" then [] else
    ["https://czj." ++ abbr ++ ".gov.cn",
     "http://czj." ++ abbr ++ ".gov.cn",
     "https://cz." ++ abbr ++ ".gov.cn",
     "http://cz." ++ abbr ++ ".gov.cn",
     "https://mof." ++ abbr ++ ".gov.cn",
     "http://mof." ++ abbr ++ ".gov.cn"])
  ++ (PROVINCE_PREFIXES.flatMap fun prov =>
    (if full = "" then [] else
      ["https://czj." ++ prov ++ full ++ ".gov.cn",
       "http://czj." ++ prov ++ full ++ ".gov.cn",
       "https://mof." ++ prov ++ full ++ ".gov.cn",
       "http://mof." ++ prov ++ full ++ ".gov.cn"])
    ++ (if abbr = "" then [] else
      ["https://czj." ++ prov ++ abbr ++ ".gov.cn",
       "http://czj." ++ prov ++ abbr ++ ".gov.cn",
       "https://mof." ++ prov ++ abbr ++ ".gov.cn",
       "http://mof." ++ prov ++ abbr ++ ".gov.cn"]))

/-! ## Mapping store merge: `mapping_tool.test_and_iterate_mappings` -/

/-- A city's site mapping `{"gov": ..., "fin": ...}`; the empty string models
a missing/empty field (Python falsiness of `None` and `""`). -/
structure SiteMapping where
  gov : String
  fin : String
deriving DecidableEq, Repr

/-- The auto-update merge step of `mapping_tool.test_and_iterate_mappings`
(`if gov_suggest: mapping_copy[city]['gov'] = gov_suggest`, and likewise for
`fin`): a field is overwritten only by a truthy (non-empty) suggestion. -/
def apply_suggestion (old s : SiteMapping) : SiteMapping :=
  { gov := if s.gov = "" then old.gov else s.gov
    fin := if s.fin = "" then old.fin else s.fin }

/-- Store-level update (`mapping_copy.setdefault(city, {})` followed by the
conditional field writes): a missing entry behaves as an empty mapping. -/
def mapping_put (store : String → Option SiteMapping) (city : String)
    (s : SiteMapping) : String → Option SiteMapping :=
  fun c =>
    if c = city then some (apply_suggestion ((store city).getD ⟨"", ""⟩) s)
    else store c

/-! ## Download manager: `FinanceReportSpider.download_file` -/

/-- Outcome of one `session.get(url, stream=True)` inside `download_file`:
either a response with status, whether `Content-Type` contains `text/html`,
the declared `Content-Length` (`0` when the header is absent, as in
`int(response.headers.get('Content-Length', 0))`) and the number of bytes the
body yields, or one of the two exception classes the code distinguishes. -/
inductive DlResp where
  | ok (status : Nat) (isHtml : Bool) (contentLength : Nat) (bytes : Nat)
  | timeoutEx
  | otherEx
deriving DecidableEq, Repr

/-- Result of one attempt of the retry loop in `download_file`: the loop
either returns (with the final on-disk state of `save_path`, `none` meaning
no file / file removed) or falls through to the next attempt. -/
inductive AttemptRes where
  | done (success : Bool) (file : Option Nat)
  | retry (file : Option Nat)
deriving DecidableEq, Repr

/-- One iteration of the `for attempt in range(MAX_RETRIES)` loop of
`download_file`.  `fileBefore` is the current on-disk state of `save_path`
(size in bytes, `none` = absent); `isLast` is `attempt = MAX_RETRIES - 1`
(on earlier attempts failures `continue`).  On a 200 response the file is
written with `bytes` bytes (mode `'wb'` truncates), then validated: a
declared-length mismatch fails the attempt without removing the file, and a
zero-byte file is removed (`os.remove`) and fails the attempt. -/
def download_attempt (url : String) (r : DlResp) (fileBefore : Option Nat)
    (isLast : Bool) : AttemptRes :=
  match r with
  | .timeoutEx => if isLast then .done false fileBefore else .retry fileBefore
  | .otherEx => if isLast then .done false fileBefore else .retry fileBefore
  | .ok status isHtml cl bytes =>
    if status = 200 then
      let url_lower := strToLower url
      let hasExt := TARGET_FILE_TYPES.any (fun ext => strEndsWith url_lower ext)
      if isHtml && !strEndsWith url_lower ".html" && !hasExt then
        .done false fileBefore
      else
        let file : Option Nat := some bytes
        if cl > 0 && bytes != cl then
          if isLast then .done false file else .retry file
        else if bytes = 0 then
          if isLast then .done false none else .retry none
        else .done true file
    else if status = 404 then .done false fileBefore
    else if isLast then .done false fileBefore else .retry fileBefore

/-- The retry loop of `download_file` over the per-attempt responses
(`resps` lists what the network does on successive attempts). -/
def download_file_aux (url : String) :
    List DlResp → Option Nat → Bool × Option Nat
  | [], file => (false, file)
  | r :: rest, file =>
    match download_attempt url r file rest.isEmpty with
    | .done b f => (b, f)
    | .retry f => download_file_aux url rest f

/-- `spider.py` `FinanceReportSpider.download_file`: up to `MAX_RETRIES`
attempts; returns the Boolean result together with the final on-disk state of
`save_path`. -/
def download_file (url : String) (resps : List DlResp) (file0 : Option Nat) :
    Bool × Option Nat :=
  download_file_aux url (resps.take MAX_RETRIES) file0

/-! ## Per-region crawl: `FinanceReportSpider.crawl_city` -/

/-- A downloadable-file link found on a report page (`extract_pdf_links`
entry). -/
structure PdfLink where
  title : String
  url : String
deriving DecidableEq, Repr

/-- Environment of one `crawl_city` run.  `website` models
`search_government_website` (`Except.error` = a raised exception caught by the
outer handler); `reports` models `search_finance_reports` on the resolved
website; `pdfLinks` models `extract_pdf_links` per report URL (`Except.error`
= an exception caught by the per-report handler); `fs` is the file system
(size of an existing file at a path); `downloadOK` is the Boolean result of
`download_file` for a URL/save-path pair. -/
structure CrawlEnv where
  website : Except String (Option String)
  reports : String → Except String (List Report)
  pdfLinks : String → Except String (List PdfLink)
  fs : String → Option Nat
  downloadOK : String → String → Bool

/-- Accumulator of the download section of `crawl_city`: files counted as
downloaded, error messages appended so far, and the number of
`download_file` network invocations performed. -/
structure CrawlState where
  count : Nat
  errors : List String
  netCalls : Nat
deriving DecidableEq, Repr

/-- The per-region result dict of `crawl_city`. -/
structure CrawlResult where
  city : String
  success : Bool
  website : Option String
  reports_found : Nat
  files_downloaded : Nat
  errors : List String
deriving DecidableEq, Repr

/-- `re.sub(r'[<>:"/\\|?*]', '_', title)` from `crawl_city`. -/
def sanitize_title (t : String) : String :=
  String.mk (t.toList.map fun c =>
    if ['<', '>', ':', '"', '/', '\\', '|', '?', '*'].contains c then '_' else c)

/-- `pathlib.PurePath(url).suffix`: the extension of the final path component
(`name[i:]` for the last dot index `i` with `0 < i < len(name) - 1`, else
the empty string). -/
def path_suffix (url : String) : String :=
  let comps := (splitOnSlash url.toList []).filter (fun l => !l.isEmpty)
  let name := (comps.getLast?).getD []
  match (name.reverse.findIdx? (fun c => c == '.')).map
      (fun i => name.length - 1 - i) with
  | some i => if 0 < i ∧ i < name.length - 1 then String.mk (name.drop i) else ""
  | none => ""

/-- `Path(pdf_link['url']).suffix or '.pdf'` from `crawl_city`. -/
def file_ext_of (url : String) : String :=
  let s := path_suffix url
  if s = "" then ".pdf" else s

/-- The filename `f"{safe_title}{file_ext}"` computed in `crawl_city`. -/
def filename_of (link : PdfLink) : String :=
  sanitize_title link.title ++ file_ext_of link.url

/-- `os.path.join(city_dir, filename)` (POSIX join). -/
def save_path_of (city_dir : String) (link : PdfLink) : String :=
  city_dir ++ "/" ++ filename_of link

/-- `config.py` `DOWNLOAD_DIR` (modelled as a relative path; the actual value
is an absolute path under the source tree, which only shifts every save path
by a common prefix). -/
def DOWNLOAD_DIR : String := "downloads"

/-- The body of the `for pdf_link in pdf_links` loop of `crawl_city`: skip
(and count as downloaded) an existing non-empty destination file without any
network call; otherwise invoke `download_file`, counting a success and
appending a `下载失败` error message on failure. -/
def processPdfLink (env : CrawlEnv) (city_dir : String) (st : CrawlState)
    (link : PdfLink) : CrawlState :=
  let sp := save_path_of city_dir link
  let existing := match env.fs sp with
    | some n => decide (n > 0)
    | none => false
  if existing then { st with count := st.count + 1 }
  else if env.downloadOK link.url sp then
    { st with count := st.count + 1, netCalls := st.netCalls + 1 }
  else
    { st with
      errors := st.errors ++ ["下载失败: " ++ filename_of link]
      netCalls := st.netCalls + 1 }

/-- The body of the `for report in reports` loop of `crawl_city`: extract the
page's file links (an exception appends a `处理报告失败` message and moves
on); when none are found and the report URL itself carries a target file
extension, treat the report URL as the single candidate file. -/
def processReport (env : CrawlEnv) (city_dir : String) (st : CrawlState)
    (report : Report) : CrawlState :=
  match env.pdfLinks report.url with
  | .error e =>
    { st with errors :=
        st.errors ++ ["处理报告失败 " ++ report.title ++ ": " ++ e] }
  | .ok pdfs =>
    let pdfs' := if pdfs.isEmpty then
        (if TARGET_FILE_TYPES.any
            (fun ext => strEndsWith (strToLower report.url) ext)
          then [{ title := report.title, url := report.url }] else [])
      else pdfs
    pdfs'.foldl (processPdfLink env city_dir) st

/-- `spider.py` `FinanceReportSpider.crawl_city`: resolve the website, find
reports, download attachments, and assemble the per-region result dict, with
the early-return and exception paths of the source. -/
def crawl_city (env : CrawlEnv) (city : String) : CrawlResult :=
  let base : CrawlResult :=
    { city := city, success := false, website := none, reports_found := 0,
      files_downloaded := 0, errors := [] }
  match env.website with
  | .error e => { base with errors := ["爬取失败: " ++ e] }
  | .ok none => { base with errors := ["未找到政府网站"] }
  | .ok (some w) =>
    match env.reports w with
    | .error e => { base with website := some w, errors := ["爬取失败: " ++ e] }
    | .ok reports =>
      if reports.isEmpty then
        { base with
          website := some w
          reports_found := reports.length
          errors := ["未找到财政报告"] }
      else
        let city_dir := DOWNLOAD_DIR ++ "/" ++ city
        let st := reports.foldl (processReport env city_dir)
          { count := 0, errors := [], netCalls := 0 }
        { base with
          website := some w
          reports_found := reports.length
          files_downloaded := st.count
          success := decide (st.count > 0)
          errors := st.errors }

/-! ## Theorems -/

/-- Loop invariant for `parse_search_results_loop`: the processed-page list
grows by at most `fuel` entries and stays duplicate-free. -/
theorem parse_loop_invariant (site : SearchSite) :
    ∀ fuel (processed : List String) current acc,
      (parse_search_results_loop site fuel processed current acc).2.length
          ≤ processed.length + fuel
      ∧ (processed.Nodup →
          (parse_search_results_loop site fuel processed current acc).2.Nodup) := by
  intro fuel
  induction fuel with
  | zero =>
    intro processed current acc
    exact ⟨Nat.le_add_right _ _, fun h => h⟩
  | succ n ih =>
    intro processed current acc
    unfold parse_search_results_loop
    by_cases hmem : current ∈ processed
    · simp only [if_pos hmem]
      exact ⟨Nat.le_add_right _ _, fun h => h⟩
    · simp only [if_neg hmem]
      have hlen : (current :: processed).length = processed.length + 1 := rfl
      have hnd : processed.Nodup → (current :: processed).Nodup :=
        fun h => List.nodup_cons.mpr ⟨hmem, h⟩
      cases site.fetchStatus current with
      | none =>
        refine ⟨?_, fun h => hnd h⟩
        simp only [hlen]
        omega
      | some st =>
        by_cases hst : st ≠ 200
        · simp only [if_pos hst]
          refine ⟨?_, fun h => hnd h⟩
          simp only [hlen]
          omega
        · simp only [if_neg hst]
          cases site.nextPage current with
          | none =>
            refine ⟨?_, fun h => hnd h⟩
            simp only [hlen]
            omega
          | some nxt =>
            obtain ⟨h1, h2⟩ := ih (current :: processed) nxt
              (acc ++ site.pageReports current)
            refine ⟨?_, fun h => h2 (hnd h)⟩
            calc (parse_search_results_loop site n (current :: processed) nxt
                    (acc ++ site.pageReports current)).2.length
                ≤ (current :: processed).length + n := h1
              _ = processed.length + (n + 1) := by simp [hlen]; omega

/-- C2: for every start URL and any site behaviour, the page-processing loop
of `parse_search_results` processes at most `max_pages = 100` pages, never
processes the same page URL twice, and on the synthetic cycle site (whose
next-page heuristic always points back to the already-visited start page) it
terminates after one page, returning the links collected so far. -/
theorem parse_search_results_bounded_nodup :
    (∀ site start,
      (parse_search_results site start).2.length ≤ max_pages
      ∧ (parse_search_results site start).2.Nodup)
    ∧ (∀ r : Report, parse_search_results (cycleSite r) "A" = ([r], ["A"])) := by
  constructor
  · intro site start
    obtain ⟨h1, h2⟩ := parse_loop_invariant site max_pages [] start []
    exact ⟨by simpa using h1, h2 List.nodup_nil⟩
  · intro r
    rfl

/-- C1 counterexample: a text that contains the core term, the target year,
a scope token and the region name but also an excluded token (部门).  The
spec's four-condition predicate rejects it, while the code's
`matches_keywords` accepts it — the code never checks scope or exclusion
tokens. -/
theorem matches_keywords_exclusion_counterexample :
    matches_keywords "2025年赣州市本级部门决算" "决算" = true
    ∧ specMatchPredicate "2025年赣州市本级部门决算" "赣州市" 2025 = false := by
  constructor
  · rfl
  · rfl

/-- C1 (amended): `matches_keywords` is a two-condition predicate — it
returns `true` iff the text is non-empty, contains the searched keyword
case-insensitively or any of the configured `SEARCH_KEYWORDS`, and contains
the decimal rendering of `TARGET_YEAR` as a substring.  No scope-token,
region-name or exclusion-token condition is checked. -/
theorem matches_keywords_amended :
    ∀ text kw : String,
      matches_keywords text kw = true ↔
        (text ≠ ""
        ∧ (strContains (strToLower text) (strToLower kw) = true
           ∨ ∃ k ∈ SEARCH_KEYWORDS,
              strContains (strToLower text) (strToLower k) = true)
        ∧ strContains text (Nat.repr TARGET_YEAR) = true) := by
  intro text kw
  unfold matches_keywords
  by_cases ht : text = ""
  · simp [ht]
  · simp only [if_neg ht, Bool.and_eq_true, Bool.or_eq_true, List.any_eq_true]
    tauto

/-- C9: the year condition of `matches_keywords` tests only
`TARGET_YEAR = max(TARGET_YEARS) = 2025`: every matching text contains
"2025"; a text containing only the other configured target year 2024 fails;
and a text containing the excluded year 2023 still matches (the
`NO_TARGET_YEARS` list is never consulted). -/
theorem matches_keywords_year_condition :
    (TARGET_YEAR = 2025 ∧ ∀ y ∈ TARGET_YEARS, y ≤ TARGET_YEAR)
    ∧ (∀ text kw : String, matches_keywords text kw = true →
        strContains text (Nat.repr TARGET_YEAR) = true)
    ∧ matches_keywords "2024年预算决算公开" "决算" = false
    ∧ (NO_TARGET_YEARS = [2023]
       ∧ strContains "2023年与2025年决算" "2023" = true
       ∧ matches_keywords "2023年与2025年决算" "决算" = true) := by
  refine ⟨⟨rfl, by decide⟩, ?_, by decide, rfl, by decide, by decide⟩
  intro text kw h
  unfold matches_keywords at h
  by_cases ht : text = ""
  · rw [if_pos ht] at h
    cases h
  · rw [if_neg ht] at h
    simp only [Bool.and_eq_true] at h
    exact h.2

/-- C9 witness: instantiating the year-condition implication at a concrete
matching text. -/
theorem matches_keywords_year_condition_witness :
    strContains "某市2025年度决算" (Nat.repr TARGET_YEAR) = true :=
  matches_keywords_year_condition.2.1 "某市2025年度决算" "决算" (by decide)

/-- C10: on every exit path of `crawl_city` — missing website, missing
reports, a caught exception, or the normal download path — the success flag
equals the test that at least one file was downloaded. -/
theorem crawl_city_success_iff_downloads :
    ∀ env city, (crawl_city env city).success =
      decide ((crawl_city env city).files_downloaded > 0) := by
  intro env city
  rcases hw : env.website with e | ow
  · simp [crawl_city, hw]
  · rcases ow with _ | w
    · simp [crawl_city, hw]
    · rcases hr : env.reports w with e | reports
      · simp [crawl_city, hw, hr]
      · rcases reports with _ | ⟨r, rest⟩
        · simp [crawl_city, hw, hr]
        · simp [crawl_city, hw, hr]

set_option maxRecDepth 20000 in
/-- C3 counterexample: the generated candidate list is not duplicate-free —
`PROVINCE_PREFIXES` repeats the entries `"hb"` and `"hn"`, so the
province-prefixed candidate URLs occur twice. -/
theorem gov_candidates_counterexample :
    (gov_candidates "loudi" "ld").count "https://hbloudi.gov.cn" = 2
    ∧ ¬ (gov_candidates "loudi" "ld").Nodup := by
  have h : (gov_candidates "loudi" "ld").count "https://hbloudi.gov.cn" = 2 := by
    decide
  refine ⟨h, fun hnd => ?_⟩
  have h1 := List.nodup_iff_count_le_one.mp hnd "https://hbloudi.gov.cn"
  omega

set_option maxRecDepth 20000 in
/-- C3 (amended): for every region whose transliteration succeeds the
candidate generator is a pure function of the pinyin forms that returns a
non-empty, deterministically ordered list (the exact-transliteration
candidate first, and a fixed length once both forms are non-empty); it is
however not duplicate-free, because `PROVINCE_PREFIXES` contains repeated
entries. -/
theorem gov_candidates_amended :
    ∀ full abbr : String, full ≠ "" →
      gov_candidates full abbr ≠ []
      ∧ (gov_candidates full abbr).head? =
          some ("https://www." ++ full ++ ".gov.cn")
      ∧ (abbr ≠ "" → (gov_candidates full abbr).length = 292) := by
  intro full abbr h
  refine ⟨?_, ?_, fun h2 => ?_⟩
  · simp [gov_candidates, h]
  · simp [gov_candidates, h]
  · simp only [gov_candidates, if_neg h, if_neg h2]
    rfl

set_option maxRecDepth 20000 in
/-- C3 witness: instantiating the amended candidate-generator property at the
pinyin forms of 娄底市 (loudi / ld). -/
theorem gov_candidates_amended_witness :
    gov_candidates "loudi" "ld" ≠ []
    ∧ (gov_candidates "loudi" "ld").head? = some "https://www.loudi.gov.cn"
    ∧ (gov_candidates "loudi" "ld").length = 292 := by
  obtain ⟨h1, h2, h3⟩ := gov_candidates_amended "loudi" "ld" (by decide)
  exact ⟨h1, h2, h3 (by decide)⟩

/-- C4: the mapping-store auto-update merge never downgrades a previously
recorded non-empty `gov`/`fin` field to empty, and writing a suggestion with
an empty `gov` and a new `fin` over an existing mapping with a non-empty
`gov` and empty `fin` keeps the old `gov` and takes the new `fin`. -/
theorem mapping_put_no_downgrade :
    (∀ (store : String → Option SiteMapping) (city : String)
        (s old : SiteMapping), store city = some old →
        ∃ newm, mapping_put store city s city = some newm
          ∧ (old.gov ≠ "" → newm.gov ≠ "")
          ∧ (old.fin ≠ "" → newm.fin ≠ ""))
    ∧ (∀ (store : String → Option SiteMapping) (city X Y : String),
        store city = some ⟨Y, ""⟩ →
        mapping_put store city ⟨"", X⟩ city = some ⟨Y, X⟩) := by
  constructor
  · intro store city s old h
    refine ⟨apply_suggestion old s, by simp [mapping_put, h], ?_, ?_⟩
    · intro hg
      by_cases hs : s.gov = "" <;> simp [apply_suggestion, hs, hg]
    · intro hf
      by_cases hs : s.fin = "" <;> simp [apply_suggestion, hs, hf]
  · intro store city X Y h
    by_cases hX : X = "" <;>
      simp [mapping_put, h, apply_suggestion, hX]

/-- C4 witness: the spec's concrete merge scenario
`put(r, {gov:"", fin:X})` after `{gov:Y, fin:""}` yields `{gov:Y, fin:X}`. -/
theorem mapping_put_no_downgrade_witness :
    mapping_put (fun _ => some ⟨"https://www.ganzhou.gov.cn", ""⟩) "赣州市"
      ⟨"", "https://czj.ganzhou.gov.cn"⟩ "赣州市"
    = some ⟨"https://www.ganzhou.gov.cn", "https://czj.ganzhou.gov.cn"⟩ :=
  mapping_put_no_downgrade.2 _ "赣州市" _ _ rfl

/-- C5: `first_alive` returns not-found exactly when every candidate fails,
returns the result of the first succeeding candidate, and a candidate
succeeds with the normalized scheme+host of the final URL via a HEAD probe
answering 200, or via the GET fallback when the HEAD probe answers 405 or
403. -/
theorem first_alive_spec :
    (∀ net cs, first_alive net cs = none ↔
      ∀ u ∈ cs, candidateResult net u = none)
    ∧ (∀ net (cs1 cs2 : List String) (u r : String),
        (∀ v ∈ cs1, candidateResult net v = none) →
        candidateResult net u = some r →
        first_alive net (cs1 ++ u :: cs2) = some r)
    ∧ (∀ net u f, net.head u = .ok 200 f →
        candidateResult net u = some (normalizeRoot f))
    ∧ (∀ net u s f f2, net.head u = .ok s f → s = 405 ∨ s = 403 →
        net.get u = .ok 200 f2 →
        candidateResult net u = some (normalizeRoot f2)) := by
  refine ⟨?_, ?_, ?_, ?_⟩
  · intro net cs
    induction cs with
    | nil => simp [first_alive]
    | cons u rest ih =>
      simp only [first_alive]
      cases hc : candidateResult net u with
      | none => simp [hc, ih]
      | some r => simp [hc]
  · intro net cs1
    induction cs1 with
    | nil =>
      intro cs2 u r _ hc
      simp [first_alive, hc]
    | cons v rest ih =>
      intro cs2 u r hall hc
      have hv := hall v (List.mem_cons_self v rest)
      simp only [List.cons_append, first_alive, hv]
      exact ih cs2 u r (fun x hx => hall x (List.mem_cons_of_mem _ hx)) hc
  · intro net u f h
    simp [candidateResult, h]
  · intro net u s f f2 hh hs hg
    rcases hs with rfl | rfl <;> simp [candidateResult, hh, hg]

/-- A concrete network for the C5 witness: the first candidate refuses the
connection, the second answers the HEAD probe with 200 after redirecting to
its canonical host. -/
def deadLiveNet : Net :=
  { head := fun u =>
      if u = "https://live.example.gov.cn"
        then .ok 200 "https://www.live.example.gov.cn/index.html"
        else .connectionEx
    get := fun _ => .exc }

/-- C5 witness: the first-success clause instantiated on `deadLiveNet` — the
dead candidate is skipped silently and the verifier returns the normalized
root of the live candidate's final URL. -/
theorem first_alive_spec_witness :
    first_alive deadLiveNet
      ["http://dead.example.gov.cn", "https://live.example.gov.cn"]
      = some "https://www.live.example.gov.cn" :=
  first_alive_spec.2.1 deadLiveNet ["http://dead.example.gov.cn"] []
    "https://live.example.gov.cn" "https://www.live.example.gov.cn"
    (by decide) (by decide)

/-- C6: when the destination file already exists with non-zero size, the
per-file download step of `crawl_city` counts the file as downloaded and
changes nothing else — in particular it performs zero network calls and
appends no error. -/
theorem crawl_city_existing_file_short_circuit :
    ∀ env city_dir st link n,
      env.fs (save_path_of city_dir link) = some n → n > 0 →
      processPdfLink env city_dir st link = { st with count := st.count + 1 } := by
  intro env cd st link n h hn
  simp [processPdfLink, h, hn]

/-- An environment whose file system already holds every destination file
with non-zero size (for the C6 witness). -/
def existingFileEnv : CrawlEnv :=
  { website := .ok none
    reports := fun _ => .ok []
    pdfLinks := fun _ => .ok []
    fs := fun _ => some 1024
    downloadOK := fun _ _ => false }

/-- C6 witness: the short-circuit applied to a concrete existing file — the
counter increments while errors and the network-call count are untouched. -/
theorem crawl_city_existing_file_short_circuit_witness :
    processPdfLink existingFileEnv "downloads/赣州市" ⟨2, ["旧错误"], 3⟩
      ⟨"2025年决算报告", "https://czj.ganzhou.gov.cn/2025js.pdf"⟩
      = ⟨3, ["旧错误"], 3⟩ :=
  crawl_city_existing_file_short_circuit existingFileEnv "downloads/赣州市"
    ⟨2, ["旧错误"], 3⟩ ⟨"2025年决算报告", "https://czj.ganzhou.gov.cn/2025js.pdf"⟩
    1024 rfl (by decide)

/-- C7 counterexample: a download that completes with a zero-byte file while
the server declared `Content-Length: 5` hits the size-mismatch branch on
every attempt, so `download_file` fails — but the zero-byte file is *not*
deleted from disk (the claim asserts every zero-byte completed attempt
deletes the file). -/
theorem download_file_zero_byte_counterexample :
    download_file "https://x.gov.cn/a.pdf"
      [.ok 200 false 5 0, .ok 200 false 5 0, .ok 200 false 5 0] none
      = (false, some 0) := by
  rfl

/-- C7 (amended): a zero-byte completed download with no declared
`Content-Length` is deleted from disk and treated as a failed attempt
eligible for retry; a declared-length mismatch (which subsumes the zero-byte
case whenever a positive length was declared) is likewise treated as a
failed attempt, but without deleting the file; and with the zero-byte
response on every attempt the retry bound `MAX_RETRIES` is exhausted and the
download reports failure with the file removed. -/
theorem download_attempt_validation :
    (∀ (url : String) (file : Option Nat) (isLast : Bool),
      download_attempt url (.ok 200 false 0 0) file isLast
        = if isLast then .done false none else .retry none)
    ∧ (∀ (url : String) (file : Option Nat) (isLast : Bool) (cl bytes : Nat),
        0 < cl → bytes ≠ cl →
        download_attempt url (.ok 200 false cl bytes) file isLast
          = if isLast then .done false (some bytes) else .retry (some bytes))
    ∧ (∀ url : String,
        download_file url (List.replicate MAX_RETRIES (.ok 200 false 0 0)) none
          = (false, none)) := by
  refine ⟨?_, ?_, ?_⟩
  · intro url file isLast
    rfl
  · intro url file isLast cl bytes hcl hb
    simp [download_attempt, hcl, hb]
  · intro url
    rfl

/-- C7 witness: the mismatch clause instantiated at a concrete non-final
attempt (declared length 5, zero bytes written): the attempt fails and
retries, the zero-byte file staying on disk. -/
theorem download_attempt_validation_witness :
    download_attempt "https://x.gov.cn/b.pdf" (.ok 200 false 5 0) none false
      = .retry (some 0) :=
  download_attempt_validation.2.1 "https://x.gov.cn/b.pdf" none false 5 0
    (by decide) (by decide)

/-- An environment in which the website resolves and one report is found,
but the report page yields no downloadable file links and the report URL
carries no target file extension (for the C8 counterexample). -/
def silentEnv : CrawlEnv :=
  { website := .ok (some "https://www.example.gov.cn")
    reports := fun _ => .ok
      [{ title := "2025年决算公开", url := "https://www.example.gov.cn/jsgk/index.html" }]
    pdfLinks := fun _ => .ok []
    fs := fun _ => none
    downloadOK := fun _ _ => false }

/-- C8 counterexample: a region whose single found report yields no
downloadable file link ends with `success = false` and an *empty* error
list — an unsuccessful region with no diagnostic message. -/
theorem crawl_city_silent_failure_counterexample :
    (crawl_city silentEnv "测试市").success = false
    ∧ (crawl_city silentEnv "测试市").reports_found = 1
    ∧ (crawl_city silentEnv "测试市").errors = [] := by
  refine ⟨rfl, rfl, rfl⟩

/-- C8 (amended): the error list is non-empty on the no-website, exception
and no-reports exit paths, every failed download appends a `下载失败`
diagnostic, and every report-processing exception appends a `处理报告失败`
diagnostic; but a region whose found reports yield no download candidates
ends unsuccessful with an empty error list. -/
theorem crawl_city_errors_on_failure_paths :
    (∀ env city, env.website = .ok none → (crawl_city env city).errors ≠ [])
    ∧ (∀ env city e, env.website = .error e → (crawl_city env city).errors ≠ [])
    ∧ (∀ env city w, env.website = .ok (some w) → env.reports w = .ok [] →
        (crawl_city env city).errors ≠ [])
    ∧ (∀ env city w e, env.website = .ok (some w) → env.reports w = .error e →
        (crawl_city env city).errors ≠ [])
    ∧ (∀ env city_dir st link, env.fs (save_path_of city_dir link) = none →
        env.downloadOK link.url (save_path_of city_dir link) = false →
        (processPdfLink env city_dir st link).errors
          = st.errors ++ ["下载失败: " ++ filename_of link])
    ∧ (∀ env city_dir st (report : Report) (e : String),
        env.pdfLinks report.url = .error e →
        (processReport env city_dir st report).errors
          = st.errors ++ ["处理报告失败 " ++ report.title ++ ": " ++ e]) := by
  refine ⟨?_, ?_, ?_, ?_, ?_, ?_⟩
  · intro env city h
    simp [crawl_city, h]
  · intro env city e h
    simp [crawl_city, h]
  · intro env city w h1 h2
    simp [crawl_city, h1, h2]
  · intro env city w e h1 h2
    simp [crawl_city, h1, h2]
  · intro env cd st link h1 h2
    simp [processPdfLink, h1, h2]
  · intro env cd st report e h
    simp [processReport, h]

/-- An environment in which no government website is found (for the C8
witness). -/
def noSiteEnv : CrawlEnv :=
  { website := .ok none
    reports := fun _ => .ok []
    pdfLinks := fun _ => .ok []
    fs := fun _ => none
    downloadOK := fun _ _ => false }

/-- C8 witness: the no-website exit path instantiated at a concrete
environment really carries a diagnostic. -/
theorem crawl_city_errors_on_failure_paths_witness :
    (crawl_city noSiteEnv "和田地区").errors ≠ [] :=
  crawl_city_errors_on_failure_paths.1 noSiteEnv "和田地区" rfl

end GetFinancial
